import Mathlib

/-!
Shallow embedding of the Authentication & Request-Retry Coordinator of
`src/src/libs/Authentication.ts`.

The coordinator's own logic (`Authenticate`, `reauthenticate`) is translated
directly from the source.  Its collaborators (`requireParameters`,
`NetworkStore`, `updateSessionAuthTokens`, `redirectToSignIn`,
`ErrorUtils.getAuthenticateErrorMessage`, `CONFIG`, `CONST`) are not part of
the source tree; they are modelled from the spec where marked.

A `reauthenticate` cycle is embedded as a pure function from the pre-cycle
store state and the transport's response to a list of `Effect`s (the
side-effecting collaborator calls, in program order) together with the
promise outcome (`Except.error` = the returned promise rejects,
`Except.ok` = it resolves).
-/

namespace Expensify

/-- Wire result of the Authenticate command:
`{jsonCode: int, authToken?: string, encryptedAuthToken?: string}`.
`none` stands for an absent (`undefined`) field. -/
structure Response where
  jsonCode : Int
  authToken : Option String
  encryptedAuthToken : Option String
  deriving DecidableEq, Repr

/-- Stored partner credentials as read from `NetworkStore.getCredentials()`;
each field may be absent at runtime. -/
structure Credentials where
  autoGeneratedLogin : Option String
  autoGeneratedPassword : Option String
  deriving DecidableEq, Repr

/-- The `Parameters` type of `Authenticate` in `Authentication.ts`.  All
fields are optional at the JavaScript runtime level (TypeScript annotations
are erased), so every field is an `Option`; `none` is an absent value. -/
structure Parameters where
  useExpensifyLogin : Option Bool
  partnerName : Option String
  partnerPassword : Option String
  partnerUserID : Option String
  partnerUserSecret : Option String
  twoFactorAuthCode : Option String
  email : Option String
  authToken : Option String
  deriving DecidableEq, Repr

/-- The command-transport request built by `Network.post` inside
`Authenticate`: the command name plus the parameter map that is actually
sent on the wire. -/
structure NetworkRequest where
  commandName : String
  useExpensifyLogin : Option Bool
  partnerName : Option String
  partnerPassword : Option String
  partnerUserID : Option String
  partnerUserSecret : Option String
  twoFactorAuthCode : Option String
  authToken : Option String
  shouldRetry : Bool
  forceNetworkRequest : Bool
  email : Option String
  deriving DecidableEq, Repr

/-- Modelled from the spec: `CONST.JSON_CODE.UNABLE_TO_RETRY`, the
distinguished sentinel `jsonCode` marking a connectivity-class
(retryable/offline) failure; distinct from `200` and from ordinary
HTTP-style rejection codes such as `407`.  `CONST.ts` is not in the
source tree. -/
def UNABLE_TO_RETRY : Int := -1

/-- Modelled from the spec: `CONFIG.EXPENSIFY.PARTNER_NAME`, an external
build-time configuration constant that is always a present string.
`CONFIG.ts` is not in the source tree. -/
def PARTNER_NAME : String := "expensify.com"

/-- Modelled from the spec: `CONFIG.EXPENSIFY.PARTNER_PASSWORD`, an external
build-time configuration constant that is always a present string. -/
def PARTNER_PASSWORD : String := "partner-password"

/-- Modelled from the spec: `requireParameters(names, parameters, command)`
(not in the source tree).  Per the spec it is a synchronous precondition
check that fails fast when a required parameter is missing, before any
network call; `Authenticate` requires `partnerName`, `partnerPassword`,
`partnerUserID` and `partnerUserSecret`.  Returns the name of the first
missing required parameter, or `none` when the check passes. -/
def missingRequiredParameter (p : Parameters) : Option String :=
  if p.partnerName.isNone then some "partnerName"
  else if p.partnerPassword.isNone then some "partnerPassword"
  else if p.partnerUserID.isNone then some "partnerUserID"
  else if p.partnerUserSecret.isNone then some "partnerUserSecret"
  else none

/-- `Authenticate(parameters)` from `Authentication.ts`: runs the
`requireParameters` precondition check and then posts the `Authenticate`
command through the transport with `shouldRetry: false` and
`forceNetworkRequest: true`.  `Except.error` is the synchronous throw of
the precondition check (no request is built); `Except.ok` carries the
request handed to `Network.post`. -/
def Authenticate (p : Parameters) : Except String NetworkRequest :=
  match missingRequiredParameter p with
  | some name => .error ("Parameter " ++ name ++ " is required for Authenticate")
  | none =>
      .ok { commandName := "Authenticate"
            useExpensifyLogin := p.useExpensifyLogin
            partnerName := p.partnerName
            partnerPassword := p.partnerPassword
            partnerUserID := p.partnerUserID
            partnerUserSecret := p.partnerUserSecret
            twoFactorAuthCode := p.twoFactorAuthCode
            authToken := p.authToken
            shouldRetry := false
            forceNetworkRequest := true
            email := p.email }

/-- Modelled from the spec: the Error Classifier
`ErrorUtils.getAuthenticateErrorMessage(response)` (not in the source
tree), `classify(Response) -> string`: a pure map from a response to a
human-readable failure reason. -/
def getAuthenticateErrorMessage (r : Response) : String :=
  "Authentication failed with jsonCode " ++ toString r.jsonCode

/-- One side-effecting collaborator call made during a `reauthenticate`
cycle, in program order:
`NetworkStore.setIsAuthenticating`, `updateSessionAuthTokens` (the Session
Store write), `NetworkStore.setAuthToken` (the local token copy),
`Log.hmmm`, and `redirectToSignIn` (the Sign-In Redirector). -/
inductive Effect where
  | setIsAuthenticating (b : Bool)
  | sessionWrite (authToken encryptedAuthToken : Option String)
  | setAuthToken (authToken : Option String)
  | logHmmm (command message : String)
  | redirect (message : String)
  deriving DecidableEq, Repr

/-- The `.then` continuation of `reauthenticate` in `Authentication.ts`,
applied to the transport's response: the emitted effects in program order,
and the promise outcome (`.error` = a thrown error rejects the promise,
`.ok` = it resolves). -/
def reauthenticateThen (command : String) (response : Response) :
    List Effect × Except String Unit :=
  if response.jsonCode = UNABLE_TO_RETRY then
    ([Effect.setIsAuthenticating false],
     .error "Unable to retry Authenticate request")
  else if response.jsonCode ≠ 200 then
    let errorMessage := getAuthenticateErrorMessage response
    ([Effect.setIsAuthenticating false,
      Effect.logHmmm command errorMessage,
      Effect.redirect errorMessage],
     .ok ())
  else
    ([Effect.sessionWrite response.authToken response.encryptedAuthToken,
      Effect.setAuthToken response.authToken,
      Effect.setIsAuthenticating false],
     .ok ())

/-- The parameter record `reauthenticate` passes to `Authenticate`:
config partner identity plus the optionally-present stored credentials
(`credentials?.autoGeneratedLogin`, `credentials?.autoGeneratedPassword`). -/
def reauthenticateParameters (credentials : Option Credentials) : Parameters :=
  { useExpensifyLogin := some false
    partnerName := some PARTNER_NAME
    partnerPassword := some PARTNER_PASSWORD
    partnerUserID := credentials.bind (fun c => c.autoGeneratedLogin)
    partnerUserSecret := credentials.bind (fun c => c.autoGeneratedPassword)
    twoFactorAuthCode := none
    email := none
    authToken := none }

/-- `reauthenticate(command)` from `Authentication.ts`, as a function of the
stored credentials and of the response the transport resolves with.  It
first emits `setIsAuthenticating true`, then calls `Authenticate`; if the
precondition check throws synchronously, the thrown error propagates and no
further effect runs (the flag is left as set).  Otherwise the `.then`
continuation processes the response. -/
def reauthenticate (command : String) (credentials : Option Credentials)
    (response : Response) : List Effect × Except String Unit :=
  match Authenticate (reauthenticateParameters credentials) with
  | .error e => ([Effect.setIsAuthenticating true], .error e)
  | .ok _ =>
      let (effs, res) := reauthenticateThen command response
      (Effect.setIsAuthenticating true :: effs, res)

/-- Observable store state during a cycle: the `isAuthenticating` flag, the
Session Store session, the NetworkStore-local token copy, and the log of
Sign-In Redirector invocations. -/
structure StoreState where
  isAuthenticating : Bool
  sessionAuthToken : Option String
  sessionEncryptedAuthToken : Option String
  networkAuthToken : Option String
  redirects : List String
  deriving DecidableEq, Repr

/-- Interpret one collaborator call on the store state. -/
def applyEffect (s : StoreState) : Effect → StoreState
  | .setIsAuthenticating b => { s with isAuthenticating := b }
  | .sessionWrite tok enc =>
      { s with sessionAuthToken := tok, sessionEncryptedAuthToken := enc }
  | .setAuthToken tok => { s with networkAuthToken := tok }
  | .logHmmm _ _ => s
  | .redirect msg => { s with redirects := s.redirects ++ [msg] }

/-- Run a list of effects left to right on a store state. -/
def runEffects (s : StoreState) (l : List Effect) : StoreState :=
  l.foldl applyEffect s

/-- Whether an effect is the Session Store mutation (`updateSessionAuthTokens`). -/
def Effect.isSessionWrite : Effect → Bool
  | .sessionWrite _ _ => true
  | _ => false

/-- Whether an effect is a Sign-In Redirector invocation. -/
def Effect.isRedirect : Effect → Bool
  | .redirect _ => true
  | _ => false

/-- Number of Session Store mutations in an effect list. -/
def countSessionWrites (l : List Effect) : Nat :=
  (l.filter Effect.isSessionWrite).length

/-- Number of Sign-In Redirector invocations in an effect list. -/
def countRedirects (l : List Effect) : Nat :=
  (l.filter Effect.isRedirect).length

/-- Whether an `Except` outcome is a rejection (a thrown error). -/
def isFailure : Except String Unit → Bool
  | .error _ => true
  | .ok _ => false

/-- A store state holding a stale token, before any cycle, flag clear. -/
def initialStore (staleToken : Option String) : StoreState :=
  { isAuthenticating := false
    sessionAuthToken := staleToken
    sessionEncryptedAuthToken := staleToken
    networkAuthToken := staleToken
    redirects := [] }

/-- Credentials with both fields present. -/
def goodCredentials : Credentials :=
  { autoGeneratedLogin := some "auto-login"
    autoGeneratedPassword := some "auto-password" }

/-- Whether `Authenticate` threw synchronously, handing nothing to the
transport (an `Except.error` never carries a `NetworkRequest`). -/
def throwsBeforeNetwork : Except String NetworkRequest → Bool
  | .error _ => true
  | .ok _ => false

/-- The effect list of a full `reauthenticate` cycle when the credentials
are present and the response is a success: set the flag, write the session,
set the local token, clear the flag. -/
theorem reauthenticate_success_effects (command login password : String)
    (c : Credentials) (response : Response)
    (hl : c.autoGeneratedLogin = some login)
    (hp : c.autoGeneratedPassword = some password)
    (h200 : response.jsonCode = 200) :
    reauthenticate command (some c) response =
      ([Effect.setIsAuthenticating true,
        Effect.sessionWrite response.authToken response.encryptedAuthToken,
        Effect.setAuthToken response.authToken,
        Effect.setIsAuthenticating false], .ok ()) := by
  simp [reauthenticate, Authenticate, reauthenticateParameters,
    missingRequiredParameter, hl, hp, reauthenticateThen, h200, UNABLE_TO_RETRY]

/-- The effect list of a full `reauthenticate` cycle when the credentials
are present and the response is the retryable sentinel. -/
theorem reauthenticate_retryable_effects (command login password : String)
    (c : Credentials) (response : Response)
    (hl : c.autoGeneratedLogin = some login)
    (hp : c.autoGeneratedPassword = some password)
    (hRetry : response.jsonCode = UNABLE_TO_RETRY) :
    reauthenticate command (some c) response =
      ([Effect.setIsAuthenticating true, Effect.setIsAuthenticating false],
       .error "Unable to retry Authenticate request") := by
  simp [reauthenticate, Authenticate, reauthenticateParameters,
    missingRequiredParameter, hl, hp, reauthenticateThen, hRetry]

/-- The effect list of a full `reauthenticate` cycle when the credentials
are present and the response is terminal (non-200, non-sentinel). -/
theorem reauthenticate_terminal_effects (command login password : String)
    (c : Credentials) (response : Response)
    (hl : c.autoGeneratedLogin = some login)
    (hp : c.autoGeneratedPassword = some password)
    (hNot200 : response.jsonCode ≠ 200)
    (hNotRetry : response.jsonCode ≠ UNABLE_TO_RETRY) :
    reauthenticate command (some c) response =
      ([Effect.setIsAuthenticating true,
        Effect.setIsAuthenticating false,
        Effect.logHmmm command (getAuthenticateErrorMessage response),
        Effect.redirect (getAuthenticateErrorMessage response)], .ok ()) := by
  simp [reauthenticate, Authenticate, reauthenticateParameters,
    missingRequiredParameter, hl, hp, reauthenticateThen, hNot200, hNotRetry]

/-- C1: the claim says `isAuthenticating` is false after every possible
outcome of a reauthenticate cycle, including a thrown precondition error
from the Authenticate parameter check.  The code violates this: evaluated
at the failing input (no stored credentials, so `partnerUserID` and
`partnerUserSecret` are absent), `requireParameters` throws synchronously
after `setIsAuthenticating(true)` has already run, `reauthenticate` has no
catch/finally, and the flag is left `true`. -/
theorem C1_flag_stuck_on_precondition_throw :
    throwsBeforeNetwork (Authenticate (reauthenticateParameters none)) = true ∧
    isFailure (reauthenticate "OpenReport" none
      { jsonCode := 200, authToken := some "tok1", encryptedAuthToken := some "enc1" }).2 = true ∧
    (runEffects (initialStore (some "stale"))
      (reauthenticate "OpenReport" none
        { jsonCode := 200, authToken := some "tok1", encryptedAuthToken := some "enc1" }).1).isAuthenticating = true :=
  ⟨rfl, rfl, rfl⟩

/-- C2 counterexample: the claim says a terminal (non-200, non-sentinel)
response makes `reauthenticate` return a Terminal authentication failure,
but at `jsonCode = 407` the returned promise resolves normally (the
terminal branch ends in a bare `return;`, not a throw), so the result is
not a failure. -/
theorem C2_counterexample_terminal_result_resolves :
    isFailure (reauthenticate "OpenReport" (some goodCredentials)
      { jsonCode := 407, authToken := none, encryptedAuthToken := none }).2 = false :=
  rfl

/-- C2 (amended): for every terminal (non-200, non-sentinel) Authenticate
response, `reauthenticate` clears `isAuthenticating`, invokes the Sign-In
Redirector exactly once with the classified error message for that
response, and the returned promise resolves normally — the terminal
outcome is signaled only by the redirect side effect, not by the result. -/
theorem C2_terminal_cycle (command login password : String) (c : Credentials)
    (st : StoreState) (response : Response)
    (hl : c.autoGeneratedLogin = some login)
    (hp : c.autoGeneratedPassword = some password)
    (hNot200 : response.jsonCode ≠ 200)
    (hNotRetry : response.jsonCode ≠ UNABLE_TO_RETRY) :
    (runEffects st (reauthenticate command (some c) response).1).isAuthenticating = false ∧
    countRedirects (reauthenticate command (some c) response).1 = 1 ∧
    (runEffects st (reauthenticate command (some c) response).1).redirects =
      st.redirects ++ [getAuthenticateErrorMessage response] ∧
    isFailure (reauthenticate command (some c) response).2 = false := by
  rw [reauthenticate_terminal_effects command login password c response hl hp hNot200 hNotRetry]
  simp [runEffects, applyEffect, countRedirects, Effect.isRedirect, isFailure]

/-- C2 witness: the amended terminal-cycle theorem applied at the concrete
response `{jsonCode: 407}`. -/
theorem C2_terminal_cycle_witness :
    (runEffects (initialStore (some "stale")) (reauthenticate "OpenReport" (some goodCredentials)
      { jsonCode := 407, authToken := none, encryptedAuthToken := none }).1).isAuthenticating = false ∧
    countRedirects (reauthenticate "OpenReport" (some goodCredentials)
      { jsonCode := 407, authToken := none, encryptedAuthToken := none }).1 = 1 ∧
    (runEffects (initialStore (some "stale")) (reauthenticate "OpenReport" (some goodCredentials)
      { jsonCode := 407, authToken := none, encryptedAuthToken := none }).1).redirects =
      (initialStore (some "stale")).redirects ++
        [getAuthenticateErrorMessage { jsonCode := 407, authToken := none, encryptedAuthToken := none }] ∧
    isFailure (reauthenticate "OpenReport" (some goodCredentials)
      { jsonCode := 407, authToken := none, encryptedAuthToken := none }).2 = false :=
  C2_terminal_cycle "OpenReport" "auto-login" "auto-password" goodCredentials
    (initialStore (some "stale"))
    { jsonCode := 407, authToken := none, encryptedAuthToken := none }
    rfl rfl (by decide) (by decide)

/-- C3: for every Authenticate response with the retryable sentinel
`jsonCode`, `reauthenticate` clears `isAuthenticating`, rejects with the
retryable error, never invokes the Sign-In Redirector and never writes the
Session Store (zero redirect and zero session-write effects; the session
fields are unchanged). -/
theorem C3_retryable_cycle (command login password : String) (c : Credentials)
    (st : StoreState) (response : Response)
    (hl : c.autoGeneratedLogin = some login)
    (hp : c.autoGeneratedPassword = some password)
    (hRetry : response.jsonCode = UNABLE_TO_RETRY) :
    (reauthenticate command (some c) response).2 =
      .error "Unable to retry Authenticate request" ∧
    (runEffects st (reauthenticate command (some c) response).1).isAuthenticating = false ∧
    countRedirects (reauthenticate command (some c) response).1 = 0 ∧
    countSessionWrites (reauthenticate command (some c) response).1 = 0 ∧
    (runEffects st (reauthenticate command (some c) response).1).sessionAuthToken =
      st.sessionAuthToken ∧
    (runEffects st (reauthenticate command (some c) response).1).sessionEncryptedAuthToken =
      st.sessionEncryptedAuthToken := by
  rw [reauthenticate_retryable_effects command login password c response hl hp hRetry]
  simp [runEffects, applyEffect, countRedirects, countSessionWrites,
    Effect.isRedirect, Effect.isSessionWrite]

/-- C3 witness: the retryable-cycle theorem applied at the concrete
sentinel response. -/
theorem C3_retryable_cycle_witness :
    (reauthenticate "OpenReport" (some goodCredentials)
      { jsonCode := UNABLE_TO_RETRY, authToken := none, encryptedAuthToken := none }).2 =
      .error "Unable to retry Authenticate request" ∧
    (runEffects (initialStore (some "stale")) (reauthenticate "OpenReport" (some goodCredentials)
      { jsonCode := UNABLE_TO_RETRY, authToken := none, encryptedAuthToken := none }).1).isAuthenticating = false ∧
    countRedirects (reauthenticate "OpenReport" (some goodCredentials)
      { jsonCode := UNABLE_TO_RETRY, authToken := none, encryptedAuthToken := none }).1 = 0 ∧
    countSessionWrites (reauthenticate "OpenReport" (some goodCredentials)
      { jsonCode := UNABLE_TO_RETRY, authToken := none, encryptedAuthToken := none }).1 = 0 ∧
    (runEffects (initialStore (some "stale")) (reauthenticate "OpenReport" (some goodCredentials)
      { jsonCode := UNABLE_TO_RETRY, authToken := none, encryptedAuthToken := none }).1).sessionAuthToken =
      (initialStore (some "stale")).sessionAuthToken ∧
    (runEffects (initialStore (some "stale")) (reauthenticate "OpenReport" (some goodCredentials)
      { jsonCode := UNABLE_TO_RETRY, authToken := none, encryptedAuthToken := none }).1).sessionEncryptedAuthToken =
      (initialStore (some "stale")).sessionEncryptedAuthToken :=
  C3_retryable_cycle "OpenReport" "auto-login" "auto-password" goodCredentials
    (initialStore (some "stale"))
    { jsonCode := UNABLE_TO_RETRY, authToken := none, encryptedAuthToken := none }
    rfl rfl rfl

/-- C4: for every Authenticate response with `jsonCode = 200`,
`reauthenticate` writes the response's `authToken`/`encryptedAuthToken`
into the Session Store (exactly one session write), updates the local
token copy, clears `isAuthenticating`, resolves successfully, and performs
no redirect. -/
theorem C4_success_cycle (command login password : String) (c : Credentials)
    (st : StoreState) (response : Response)
    (hl : c.autoGeneratedLogin = some login)
    (hp : c.autoGeneratedPassword = some password)
    (h200 : response.jsonCode = 200) :
    (reauthenticate command (some c) response).2 = .ok () ∧
    countSessionWrites (reauthenticate command (some c) response).1 = 1 ∧
    (runEffects st (reauthenticate command (some c) response).1).sessionAuthToken =
      response.authToken ∧
    (runEffects st (reauthenticate command (some c) response).1).sessionEncryptedAuthToken =
      response.encryptedAuthToken ∧
    (runEffects st (reauthenticate command (some c) response).1).networkAuthToken =
      response.authToken ∧
    (runEffects st (reauthenticate command (some c) response).1).isAuthenticating = false ∧
    countRedirects (reauthenticate command (some c) response).1 = 0 := by
  rw [reauthenticate_success_effects command login password c response hl hp h200]
  simp [runEffects, applyEffect, countRedirects, countSessionWrites,
    Effect.isRedirect, Effect.isSessionWrite]

/-- C4 witness: the success-cycle theorem applied at
`{jsonCode: 200, authToken: "tok1"}` (Scenario A). -/
theorem C4_success_cycle_witness :
    (reauthenticate "OpenReport" (some goodCredentials)
      { jsonCode := 200, authToken := some "tok1", encryptedAuthToken := some "enc1" }).2 = .ok () ∧
    countSessionWrites (reauthenticate "OpenReport" (some goodCredentials)
      { jsonCode := 200, authToken := some "tok1", encryptedAuthToken := some "enc1" }).1 = 1 ∧
    (runEffects (initialStore (some "stale")) (reauthenticate "OpenReport" (some goodCredentials)
      { jsonCode := 200, authToken := some "tok1", encryptedAuthToken := some "enc1" }).1).sessionAuthToken =
      some "tok1" ∧
    (runEffects (initialStore (some "stale")) (reauthenticate "OpenReport" (some goodCredentials)
      { jsonCode := 200, authToken := some "tok1", encryptedAuthToken := some "enc1" }).1).sessionEncryptedAuthToken =
      some "enc1" ∧
    (runEffects (initialStore (some "stale")) (reauthenticate "OpenReport" (some goodCredentials)
      { jsonCode := 200, authToken := some "tok1", encryptedAuthToken := some "enc1" }).1).networkAuthToken =
      some "tok1" ∧
    (runEffects (initialStore (some "stale")) (reauthenticate "OpenReport" (some goodCredentials)
      { jsonCode := 200, authToken := some "tok1", encryptedAuthToken := some "enc1" }).1).isAuthenticating = false ∧
    countRedirects (reauthenticate "OpenReport" (some goodCredentials)
      { jsonCode := 200, authToken := some "tok1", encryptedAuthToken := some "enc1" }).1 = 0 :=
  C4_success_cycle "OpenReport" "auto-login" "auto-password" goodCredentials
    (initialStore (some "stale"))
    { jsonCode := 200, authToken := some "tok1", encryptedAuthToken := some "enc1" }
    rfl rfl rfl

/-- C5: per `reauthenticate` cycle the Session Store is mutated at most
once — exactly once when the precondition check passes and the response is
a success, never otherwise — and the Sign-In Redirector is invoked at most
once — exactly once when the check passes and the response is terminal
(non-200, non-sentinel), never otherwise; no cycle performs both. -/
theorem C5_side_effects_at_most_once (command : String)
    (credentials : Option Credentials) (response : Response) :
    countSessionWrites (reauthenticate command credentials response).1 ≤ 1 ∧
    countRedirects (reauthenticate command credentials response).1 ≤ 1 ∧
    (countSessionWrites (reauthenticate command credentials response).1 = 0 ∨
      countRedirects (reauthenticate command credentials response).1 = 0) ∧
    countSessionWrites (reauthenticate command credentials response).1 =
      (if missingRequiredParameter (reauthenticateParameters credentials) = none ∧
          response.jsonCode = 200 then 1 else 0) ∧
    countRedirects (reauthenticate command credentials response).1 =
      (if missingRequiredParameter (reauthenticateParameters credentials) = none ∧
          response.jsonCode ≠ 200 ∧ response.jsonCode ≠ UNABLE_TO_RETRY
       then 1 else 0) := by
  unfold reauthenticate Authenticate
  cases hm : missingRequiredParameter (reauthenticateParameters credentials) with
  | some name =>
      simp [countSessionWrites, countRedirects, Effect.isSessionWrite, Effect.isRedirect]
  | none =>
      by_cases hr : response.jsonCode = UNABLE_TO_RETRY
      · have h200 : ¬response.jsonCode = 200 := by rw [hr]; decide
        simp [reauthenticateThen, hr, h200, countSessionWrites, countRedirects,
          Effect.isSessionWrite, Effect.isRedirect, UNABLE_TO_RETRY]
      · by_cases h200 : response.jsonCode = 200
        · simp [reauthenticateThen, hr, h200, countSessionWrites, countRedirects,
            Effect.isSessionWrite, Effect.isRedirect, UNABLE_TO_RETRY]
        · have hr' : ¬response.jsonCode = -1 := hr
          simp [reauthenticateThen, hr', h200, countSessionWrites, countRedirects,
            Effect.isSessionWrite, Effect.isRedirect, UNABLE_TO_RETRY]

/-- C6: an `Authenticate` call missing any of the required parameters
`partnerName`, `partnerPassword`, `partnerUserID`, `partnerUserSecret`
throws synchronously from the precondition check; the thrown branch hands
no request to the Command Transport. -/
theorem C6_missing_parameter_fails_fast (p : Parameters)
    (h : p.partnerName = none ∨ p.partnerPassword = none ∨
         p.partnerUserID = none ∨ p.partnerUserSecret = none) :
    throwsBeforeNetwork (Authenticate p) = true := by
  unfold Authenticate missingRequiredParameter
  rcases h with h | h | h | h <;> simp [h, throwsBeforeNetwork] <;> split_ifs <;>
    simp [throwsBeforeNetwork]

/-- C6 witness: Scenario E, an `Authenticate` call without
`partnerUserSecret` fails the precondition check. -/
theorem C6_missing_parameter_witness :
    throwsBeforeNetwork (Authenticate
      { useExpensifyLogin := none, partnerName := some "expensify.com",
        partnerPassword := some "pw", partnerUserID := some "user",
        partnerUserSecret := none, twoFactorAuthCode := none,
        email := none, authToken := none }) = true :=
  C6_missing_parameter_fails_fast _ (Or.inr (Or.inr (Or.inr rfl)))

/-- C7: in a successful cycle the Session Store write is committed before
`isAuthenticating` is cleared: at every point of the cycle's effect
sequence where the flag is observed `false` after having been `true`
earlier in the cycle — i.e. at every point where a request held during
the cycle could be replayed — the Session Store and the local token copy
already hold the refreshed token, never the stale pre-cycle one. -/
theorem C7_write_committed_before_flag_clear (command login password : String)
    (c : Credentials) (st : StoreState) (response : Response)
    (hl : c.autoGeneratedLogin = some login)
    (hp : c.autoGeneratedPassword = some password)
    (h200 : response.jsonCode = 200) :
    ∀ i, i ≤ (reauthenticate command (some c) response).1.length →
      (runEffects st (List.take i (reauthenticate command (some c) response).1)).isAuthenticating = false →
      (∃ j, j < i ∧
        (runEffects st (List.take j (reauthenticate command (some c) response).1)).isAuthenticating = true) →
      (runEffects st (List.take i (reauthenticate command (some c) response).1)).sessionAuthToken =
        response.authToken ∧
      (runEffects st (List.take i (reauthenticate command (some c) response).1)).networkAuthToken =
        response.authToken := by
  rw [reauthenticate_success_effects command login password c response hl hp h200]
  intro i hi hflag hwas
  simp only [List.length_cons, List.length_nil] at hi
  interval_cases i
  · obtain ⟨j, hj, _⟩ := hwas
    omega
  · simp [runEffects, applyEffect] at hflag
  · simp [runEffects, applyEffect] at hflag
  · simp [runEffects, applyEffect] at hflag
  · simp [runEffects, applyEffect]

/-- C7 witness: the ordering theorem applied at the end of a concrete
successful cycle refreshing "tok1" to "tok2": the replay point observes
"tok2". -/
theorem C7_write_committed_witness :
    (runEffects (initialStore (some "tok1"))
      (List.take 4 (reauthenticate "OpenReport" (some goodCredentials)
        { jsonCode := 200, authToken := some "tok2", encryptedAuthToken := some "enc2" }).1)).sessionAuthToken =
      some "tok2" ∧
    (runEffects (initialStore (some "tok1"))
      (List.take 4 (reauthenticate "OpenReport" (some goodCredentials)
        { jsonCode := 200, authToken := some "tok2", encryptedAuthToken := some "enc2" }).1)).networkAuthToken =
      some "tok2" :=
  C7_write_committed_before_flag_clear "OpenReport" "auto-login" "auto-password"
    goodCredentials (initialStore (some "tok1"))
    { jsonCode := 200, authToken := some "tok2", encryptedAuthToken := some "enc2" }
    rfl rfl rfl 4 (by decide) (by decide) ⟨1, by decide, by decide⟩

/-- Concrete parameters with every required field present. -/
def fullParameters : Parameters :=
  { useExpensifyLogin := some true
    partnerName := some "expensify.com"
    partnerPassword := some "pw"
    partnerUserID := some "user"
    partnerUserSecret := some "secret"
    twoFactorAuthCode := none
    email := none
    authToken := none }

/-- C9: every request `Authenticate` hands to the Command Transport
carries `shouldRetry = false` and `forceNetworkRequest = true`, for every
parameters value. -/
theorem C9_transport_flags (p : Parameters) (req : NetworkRequest)
    (h : Authenticate p = .ok req) :
    req.shouldRetry = false ∧ req.forceNetworkRequest = true := by
  unfold Authenticate at h
  cases hm : missingRequiredParameter p <;> rw [hm] at h
  · injection h with h
    subst h
    exact ⟨rfl, rfl⟩
  · exact absurd h (by simp)

/-- C9 witness: the transport-flags theorem applied to the concrete
request built from fully-populated parameters. -/
theorem C9_transport_flags_witness :
    ({ commandName := "Authenticate", useExpensifyLogin := some true,
       partnerName := some "expensify.com", partnerPassword := some "pw",
       partnerUserID := some "user", partnerUserSecret := some "secret",
       twoFactorAuthCode := none, authToken := none, shouldRetry := false,
       forceNetworkRequest := true, email := none } : NetworkRequest).shouldRetry = false ∧
    ({ commandName := "Authenticate", useExpensifyLogin := some true,
       partnerName := some "expensify.com", partnerPassword := some "pw",
       partnerUserID := some "user", partnerUserSecret := some "secret",
       twoFactorAuthCode := none, authToken := none, shouldRetry := false,
       forceNetworkRequest := true, email := none } : NetworkRequest).forceNetworkRequest = true :=
  C9_transport_flags fullParameters _ rfl

/-- C10 (implicit): a `jsonCode = 200` response whose `authToken` field is
absent is still treated as success: the local `NetworkStore` token is set
to `response.authToken ?? null`, i.e. `none`, the session's token becomes
`none`, `isAuthenticating` is cleared, the promise resolves, and no
redirect occurs. -/
theorem C10_success_without_token (command login password : String)
    (c : Credentials) (st : StoreState) (response : Response)
    (hl : c.autoGeneratedLogin = some login)
    (hp : c.autoGeneratedPassword = some password)
    (h200 : response.jsonCode = 200)
    (hTok : response.authToken = none) :
    (reauthenticate command (some c) response).2 = .ok () ∧
    (runEffects st (reauthenticate command (some c) response).1).networkAuthToken = none ∧
    (runEffects st (reauthenticate command (some c) response).1).sessionAuthToken = none ∧
    (runEffects st (reauthenticate command (some c) response).1).isAuthenticating = false ∧
    countRedirects (reauthenticate command (some c) response).1 = 0 := by
  rw [reauthenticate_success_effects command login password c response hl hp h200]
  simp [runEffects, applyEffect, countRedirects, Effect.isRedirect, hTok]

/-- C10 witness: the tokenless-success theorem applied at the concrete
response `{jsonCode: 200}` with no `authToken`. -/
theorem C10_success_without_token_witness :
    (reauthenticate "OpenReport" (some goodCredentials)
      { jsonCode := 200, authToken := none, encryptedAuthToken := none }).2 = .ok () ∧
    (runEffects (initialStore (some "stale")) (reauthenticate "OpenReport" (some goodCredentials)
      { jsonCode := 200, authToken := none, encryptedAuthToken := none }).1).networkAuthToken = none ∧
    (runEffects (initialStore (some "stale")) (reauthenticate "OpenReport" (some goodCredentials)
      { jsonCode := 200, authToken := none, encryptedAuthToken := none }).1).sessionAuthToken = none ∧
    (runEffects (initialStore (some "stale")) (reauthenticate "OpenReport" (some goodCredentials)
      { jsonCode := 200, authToken := none, encryptedAuthToken := none }).1).isAuthenticating = false ∧
    countRedirects (reauthenticate "OpenReport" (some goodCredentials)
      { jsonCode := 200, authToken := none, encryptedAuthToken := none }).1 = 0 :=
  C10_success_without_token "OpenReport" "auto-login" "auto-password" goodCredentials
    (initialStore (some "stale"))
    { jsonCode := 200, authToken := none, encryptedAuthToken := none }
    rfl rfl rfl rfl

/-- Modelled from the spec: the Request Gate / mutual-exclusion state.
The middleware that joins concurrent callers onto a single in-flight
cycle is not in the source tree (only `NetworkStore.setIsAuthenticating`
calls appear in `Authentication.ts`); per spec §4.1/§5/§8 it consists of
the `isAuthenticating` flag, the count of Authenticate commands sent to
the Command Transport, and the callers suspended on the in-flight cycle. -/
structure GateState where
  isAuthenticating : Bool
  transportCalls : Nat
  waiters : Nat
  deriving DecidableEq, Repr

/-- Modelled from the spec: one caller triggering re-authentication.
While `isAuthenticating` is false it sets the flag, sends exactly one
Authenticate command through the transport, and awaits the outcome;
while the flag is true it joins the in-flight cycle as a waiter without
starting a second Authenticate call. -/
def trigger (s : GateState) : GateState :=
  if s.isAuthenticating then
    { s with waiters := s.waiters + 1 }
  else
    { isAuthenticating := true, transportCalls := s.transportCalls + 1,
      waiters := s.waiters + 1 }

/-- Iterated triggering: `n` callers trigger re-authentication one after
the other, with no cycle resolution in between. -/
def triggerN : Nat → GateState → GateState
  | 0, s => s
  | n + 1, s => triggerN n (trigger s)

/-- Modelled from the spec: resolution of the in-flight cycle delivers its
single outcome to every suspended caller and clears the flag. -/
def resolveCycle (s : GateState) (outcome : Except String Unit) :
    GateState × List (Except String Unit) :=
  ({ isAuthenticating := false, transportCalls := s.transportCalls, waiters := 0 },
   List.replicate s.waiters outcome)

/-- The gate with no cycle in flight and no Authenticate command sent. -/
def idleGate : GateState := { isAuthenticating := false, transportCalls := 0, waiters := 0 }

/-- While a cycle is in flight, further triggers only accumulate waiters:
no additional Authenticate command is sent and the flag stays set. -/
theorem triggerN_inflight (n : Nat) (s : GateState)
    (h : s.isAuthenticating = true) :
    triggerN n s =
      { isAuthenticating := true, transportCalls := s.transportCalls,
        waiters := s.waiters + n } := by
  induction n generalizing s with
  | zero => simp [triggerN, ← h]
  | succ n ih =>
      rw [triggerN, trigger, if_pos h,
        ih { isAuthenticating := s.isAuthenticating, transportCalls := s.transportCalls,
             waiters := s.waiters + 1 } h]
      congr 1
      show s.waiters + 1 + n = s.waiters + (n + 1)
      omega

/-- C8: when `n ≥ 1` callers trigger re-authentication while no cycle is
in flight, exactly one Authenticate command is sent to the Command
Transport — every caller after the first joins the in-flight cycle as a
waiter instead of starting a second call — and resolving the cycle
delivers the same single outcome to all `n` callers. -/
theorem C8_mutual_exclusion (n : Nat) (outcome : Except String Unit)
    (hn : 1 ≤ n) :
    (triggerN n idleGate).transportCalls = 1 ∧
    (triggerN n idleGate).isAuthenticating = true ∧
    ((resolveCycle (triggerN n idleGate) outcome).2).length = n ∧
    ∀ r ∈ (resolveCycle (triggerN n idleGate) outcome).2, r = outcome := by
  obtain ⟨m, rfl⟩ : ∃ m, n = m + 1 := ⟨n - 1, by omega⟩
  have hstep : triggerN (m + 1) idleGate =
      { isAuthenticating := true, transportCalls := 1, waiters := 1 + m } := by
    rw [triggerN, show trigger idleGate =
      { isAuthenticating := true, transportCalls := 1, waiters := 1 } from rfl]
    exact triggerN_inflight m _ rfl
  refine ⟨by rw [hstep], by rw [hstep], ?_, ?_⟩
  · rw [hstep]
    simp [resolveCycle]
    omega
  · intro r hr
    rw [hstep] at hr
    simp [resolveCycle] at hr
    exact hr

/-- C8 witness: three concurrent triggers from the idle gate send exactly
one Authenticate command, and all three observe the single resolved
outcome. -/
theorem C8_mutual_exclusion_witness :
    (triggerN 3 idleGate).transportCalls = 1 ∧
    (triggerN 3 idleGate).isAuthenticating = true ∧
    ((resolveCycle (triggerN 3 idleGate) (.ok ())).2).length = 3 ∧
    ∀ r ∈ (resolveCycle (triggerN 3 idleGate) (.ok ())).2, r = .ok () :=
  C8_mutual_exclusion 3 (.ok ()) (by decide)

end Expensify
